import Mathlib

/-!
Verification of the CSV scoring engine of the psycho-diagnostics application
(`src/app/app.component.ts`): the per-test answer decoders, the category
aggregators, the level classifiers of the five questionnaires, and the
row-validity logic of the CSV loader.

Strings are modelled as `List Char`.  The JavaScript string primitives the
component uses (`trim`, `toLowerCase`, `includes`, `startsWith`, `split`,
`parseInt`) are embedded below for the character ranges the application
actually processes (ASCII and Ukrainian Cyrillic).
-/

/-- Whitespace as removed by JavaScript `String.prototype.trim` (the code
points that can occur in the CSV data handled by the component). -/
def jsIsWhitespace (c : Char) : Bool :=
  c = ' ' || c = '\t' || c = '\n' || c = '\r' || c = '\x0b' || c = '\x0c'

/-- JavaScript `trim`: remove leading and trailing whitespace. -/
def jsTrim (s : List Char) : List Char :=
  ((s.dropWhile jsIsWhitespace).reverse.dropWhile jsIsWhitespace).reverse

/-- JavaScript `toLowerCase` restricted to ASCII letters and the Cyrillic
block used by the questionnaire texts (U+0400..U+042F, plus Ґ). -/
def jsToLower (c : Char) : Char :=
  if 'A' ≤ c ∧ c ≤ 'Z' then Char.ofNat (c.toNat + 32)
  else if 0x410 ≤ c.toNat ∧ c.toNat ≤ 0x42F then Char.ofNat (c.toNat + 0x20)
  else if 0x400 ≤ c.toNat ∧ c.toNat ≤ 0x40F then Char.ofNat (c.toNat + 0x50)
  else if c.toNat = 0x490 then Char.ofNat 0x491
  else c

/-- JavaScript `String.prototype.includes`: substring containment. -/
def strContains (s pat : List Char) : Bool :=
  match s with
  | [] => pat.isEmpty
  | c :: rest => pat.isPrefixOf (c :: rest) || strContains rest pat

/-- JavaScript `String.prototype.split` at a single-character separator. -/
def splitOnChar (sep : Char) : List Char → List (List Char)
  | [] => [[]]
  | c :: rest =>
    match splitOnChar sep rest with
    | [] => [[c]]
    | h :: t => if c = sep then [] :: h :: t else (c :: h) :: t

/-- Numeric value of a run of decimal digits, most significant first. -/
def digitsVal : List Char → Nat → Nat
  | [], acc => acc
  | c :: rest, acc => digitsVal rest (acc * 10 + (c.toNat - '0'.toNat))

/-- JavaScript `parseInt(s, 10)` on an unsigned input: value of the longest
leading run of decimal digits; `none` models NaN. -/
def jsParseIntDigits (s : List Char) : Option Int :=
  match s.takeWhile Char.isDigit with
  | [] => none
  | ds => some (digitsVal ds 0)

/-- JavaScript `parseInt(s, 10)` on trimmed text: optional sign, then the
longest leading run of decimal digits; `none` models NaN. -/
def jsParseInt (s : List Char) : Option Int :=
  match s with
  | '-' :: rest => (jsParseIntDigits rest).map (fun n => -n)
  | '+' :: rest => jsParseIntDigits rest
  | _ => jsParseIntDigits s

/-!
Scale 1 (САН) configuration and decoder: `reversedQuestions`, the three scale
groupings and `convertSanAnswer` of the source.
-/

/-- Question numbers of the САН test with reversed scoring. -/
def reversedQuestions : List Nat := [3, 4, 9, 10, 13, 15, 16, 21, 22, 27, 28]

/-- САН scale grouping: Самопочуття. -/
def wellbeingQuestions : List Nat := [1, 2, 7, 8, 13, 14, 19, 20, 25, 26]

/-- САН scale grouping: Активність. -/
def activityQuestions : List Nat := [3, 4, 9, 10, 15, 16, 21, 22, 27, 28]

/-- САН scale grouping: Настрій. -/
def moodQuestions : List Nat := [5, 6, 11, 12, 17, 18, 23, 24, 29, 30]

/-- Positive-sense keywords of the Scale-1 extreme ("3 (…)") branch. -/
def sanPositiveKeywords : List (List Char) :=
  ["добре".data, "сильним".data, "активний".data, "рухливий".data,
   "веселий".data, "гарний".data, "працездатний".data, "сповнений сил".data,
   "швидкий".data, "дієвий".data, "щасливий".data, "життєрадісний".data,
   "розслаблений".data, "здоровий".data, "захоплений".data,
   "схвильований".data, "сповнений віри".data, "радісний".data,
   "добре відпочив".data, "свіжий".data, "збуджений".data,
   "бажаю працювати".data, "спокійний".data, "оптимістичний".data,
   "витривалий".data, "бадьорий".data, "розмірковувати легко".data,
   "уважний".data, "сповнений надій".data, "задоволений".data]

/-- Negative-sense keywords of the Scale-1 extreme ("3 (…)") branch. -/
def sanNegativeKeywords : List (List Char) :=
  ["погане".data, "слабким".data, "пасивний".data, "малорухливий".data,
   "сумний".data, "поганий".data, "малопрацездатний".data, "знесилений".data,
   "повільний".data, "бездіяльний".data, "нещасний".data, "похмурий".data,
   "напружений".data, "хворий".data, "безініціативний".data, "байдужий".data,
   "зневірений".data, "стомлений".data, "виснажений".data, "сонливий".data,
   "бажаю відпочити".data, "стурбований".data, "песимістичний".data,
   "маловитривалий".data, "млявий".data, "розмірковувати важко".data,
   "неуважний".data, "розчарований".data, "незадоволений".data]

/-- Digit content left by `normalized.replace(/[^\d]/g, '')`. -/
def sanCleanValue (normalized : List Char) : List Char :=
  normalized.filter Char.isDigit

/-- Marker detection of the Scale-1 decoder: the trimmed text is longer than
its digit content and the digit content is non-empty. -/
def sanHasSpecialChar (normalized : List Char) : Bool :=
  decide ((sanCleanValue normalized).length < normalized.length) &&
    decide (0 < (sanCleanValue normalized).length)

/-- Scale-1 (САН) decoder `convertSanAnswer`: parenthesized extremes are
classified by keyword, numeric middle values by digit content and the
presence of the trailing marker character. -/
def convertSanAnswer (rawValue : List Char) (isReversed : Bool) : Int :=
  let normalized := jsTrim rawValue
  if "3 (".data.isPrefixOf normalized || "3(".data.isPrefixOf normalized then
    let lowerValue := normalized.map jsToLower
    let isPositiveExtreme := sanPositiveKeywords.any (fun kw => strContains lowerValue kw)
    let isNegativeExtreme := sanNegativeKeywords.any (fun kw => strContains lowerValue kw)
    if isPositiveExtreme then 7
    else if isNegativeExtreme then 1
    else 4
  else
    let cleanValue := sanCleanValue normalized
    if cleanValue = ['0'] then 4
    else if cleanValue = ['1'] then
      if sanHasSpecialChar normalized then (if isReversed then 3 else 5)
      else (if isReversed then 5 else 3)
    else if cleanValue = ['2'] then
      if sanHasSpecialChar normalized then (if isReversed then 2 else 6)
      else (if isReversed then 6 else 2)
    else if cleanValue = ['3'] then 4
    else 4

/-- C1: on Scale-1 field text whose trimmed form does not begin with "3 (" or
"3(", the digit content decides the answer: bare "0" gives 4; bare "1" gives
3 without the marker character and 5 with it (5 and 3 respectively when the
question is reversed); bare "2" gives 2 without the marker and 6 with it
(6 and 2 when reversed); every other digit content — including a bare "3"
with no description — gives the default 4.  In all these cases the result
lies in 1..7. -/
theorem convertSanAnswer_digit_cases (rawValue : List Char) (isReversed : Bool)
    (h1 : "3 (".data.isPrefixOf (jsTrim rawValue) = false)
    (h2 : "3(".data.isPrefixOf (jsTrim rawValue) = false) :
    (sanCleanValue (jsTrim rawValue) = ['0'] →
      convertSanAnswer rawValue isReversed = 4) ∧
    (sanCleanValue (jsTrim rawValue) = ['1'] →
      convertSanAnswer rawValue isReversed =
        if sanHasSpecialChar (jsTrim rawValue) then (if isReversed then 3 else 5)
        else (if isReversed then 5 else 3)) ∧
    (sanCleanValue (jsTrim rawValue) = ['2'] →
      convertSanAnswer rawValue isReversed =
        if sanHasSpecialChar (jsTrim rawValue) then (if isReversed then 2 else 6)
        else (if isReversed then 6 else 2)) ∧
    (sanCleanValue (jsTrim rawValue) ≠ ['0'] →
      sanCleanValue (jsTrim rawValue) ≠ ['1'] →
      sanCleanValue (jsTrim rawValue) ≠ ['2'] →
      convertSanAnswer rawValue isReversed = 4) ∧
    (1 ≤ convertSanAnswer rawValue isReversed ∧
      convertSanAnswer rawValue isReversed ≤ 7) := by
  unfold convertSanAnswer
  simp only [h1, h2, Bool.or_self, Bool.false_eq_true, if_false]
  refine ⟨fun h => by simp [h], fun h => by simp [h], fun h => by simp [h],
    fun h0 hone htwo => by simp [h0, hone, htwo], ?_⟩
  split_ifs <;> omega

/-- Witness for C1 at the concrete input "1ㅤ" (digit 1 followed by the
U+3164 marker character), which decodes to 5. -/
theorem convertSanAnswer_digit_cases_witness :
    convertSanAnswer "1ㅤ".data false = 5 := by
  have h := (convertSanAnswer_digit_cases "1ㅤ".data false (by decide)
    (by decide)).2.1 (by decide)
  exact h.trans (by decide)

/-!
Scale 2 (Штепа) configuration, decoder and aggregator: `shtepaCategories`,
`convertShtepaAnswer` and `calculateShtepaResults` of the source.
-/

/-- One Штепа question slot: question number and expected answer. -/
structure ShtepaQ where
  num : Nat
  expected : Bool
deriving DecidableEq

/-- Штепа category definition (interface `CategoryDefinition`). -/
structure CategoryDefinition where
  name : String
  questions : List ShtepaQ

/-- Штепа category 1: Упевненість у собі. -/
def shtepaCat1 : CategoryDefinition :=
  { name := "Упевненість у собі",
    questions := [⟨2, true⟩, ⟨3, true⟩, ⟨9, false⟩, ⟨11, true⟩, ⟨12, false⟩,
      ⟨21, false⟩, ⟨22, false⟩, ⟨55, true⟩] }

/-- Штепа category 2: Доброта до людей. -/
def shtepaCat2 : CategoryDefinition :=
  { name := "Доброта до людей",
    questions := [⟨4, true⟩, ⟨5, true⟩, ⟨15, false⟩, ⟨16, false⟩, ⟨17, false⟩,
      ⟨26, false⟩, ⟨27, false⟩, ⟨28, true⟩] }

/-- Штепа category 3: Допомога іншим. -/
def shtepaCat3 : CategoryDefinition :=
  { name := "Допомога іншим",
    questions := [⟨4, true⟩, ⟨6, true⟩, ⟨10, false⟩, ⟨17, false⟩, ⟨18, false⟩,
      ⟨36, true⟩, ⟨37, true⟩, ⟨38, true⟩] }

/-- Штепа category 4: Успіх. -/
def shtepaCat4 : CategoryDefinition :=
  { name := "Успіх",
    questions := [⟨1, true⟩, ⟨12, false⟩, ⟨14, true⟩, ⟨29, true⟩, ⟨34, true⟩,
      ⟨40, true⟩, ⟨42, false⟩, ⟨55, true⟩] }

/-- Штепа category 5: Любов. -/
def shtepaCat5 : CategoryDefinition :=
  { name := "Любов",
    questions := [⟨7, false⟩, ⟨8, false⟩, ⟨11, true⟩, ⟨30, true⟩, ⟨33, false⟩,
      ⟨51, true⟩, ⟨52, true⟩, ⟨53, true⟩] }

/-- Штепа category 6: Творчість. -/
def shtepaCat6 : CategoryDefinition :=
  { name := "Творчість",
    questions := [⟨23, false⟩, ⟨24, false⟩, ⟨25, false⟩, ⟨31, true⟩,
      ⟨37, true⟩, ⟨40, true⟩, ⟨53, true⟩, ⟨54, true⟩] }

/-- Штепа category 7: Віра у добро. -/
def shtepaCat7 : CategoryDefinition :=
  { name := "Віра у добро",
    questions := [⟨1, true⟩, ⟨6, true⟩, ⟨7, false⟩, ⟨13, false⟩, ⟨16, false⟩,
      ⟨28, true⟩, ⟨34, true⟩, ⟨35, true⟩] }

/-- Штепа category 8: Прагнення до мудрості. -/
def shtepaCat8 : CategoryDefinition :=
  { name := "Прагнення до мудрості",
    questions := [⟨33, false⟩, ⟨36, true⟩, ⟨39, true⟩, ⟨45, false⟩,
      ⟨46, false⟩, ⟨47, false⟩, ⟨54, true⟩, ⟨55, true⟩] }

/-- Штепа category 9: Робота над собою. -/
def shtepaCat9 : CategoryDefinition :=
  { name := "Робота над собою",
    questions := [⟨11, true⟩, ⟨41, true⟩, ⟨43, false⟩, ⟨48, false⟩,
      ⟨49, false⟩, ⟨50, false⟩, ⟨52, true⟩, ⟨54, true⟩] }

/-- Штепа category 10: Самореалізація у професії. -/
def shtepaCat10 : CategoryDefinition :=
  { name := "Самореалізація у професії",
    questions := [⟨11, true⟩, ⟨23, false⟩, ⟨24, false⟩, ⟨40, true⟩,
      ⟨42, false⟩, ⟨44, false⟩, ⟨47, false⟩, ⟨53, true⟩] }

/-- Штепа category 11: Відповідальність. -/
def shtepaCat11 : CategoryDefinition :=
  { name := "Відповідальність",
    questions := [⟨8, false⟩, ⟨10, false⟩, ⟨19, false⟩, ⟨20, true⟩,
      ⟨22, false⟩, ⟨32, true⟩, ⟨51, true⟩, ⟨52, true⟩] }

/-- Штепа category 12: Знання власних ресурсів. -/
def shtepaCat12 : CategoryDefinition :=
  { name := "Знання власних ресурсів",
    questions := [⟨57, false⟩, ⟨59, false⟩, ⟨60, true⟩, ⟨61, true⟩,
      ⟨62, false⟩, ⟨63, false⟩, ⟨66, false⟩, ⟨67, true⟩] }

/-- Штепа category 13: Уміння оновлювати власні ресурси. -/
def shtepaCat13 : CategoryDefinition :=
  { name := "Уміння оновлювати власні ресурси",
    questions := [⟨56, true⟩, ⟨58, true⟩, ⟨60, true⟩, ⟨61, true⟩,
      ⟨62, false⟩, ⟨63, false⟩, ⟨64, false⟩, ⟨66, false⟩] }

/-- Штепа category 14: Уміння використовувати власні ресурси. -/
def shtepaCat14 : CategoryDefinition :=
  { name := "Уміння використовувати власні ресурси",
    questions := [⟨58, true⟩, ⟨59, false⟩, ⟨61, true⟩, ⟨63, false⟩,
      ⟨64, false⟩, ⟨65, true⟩, ⟨66, false⟩, ⟨67, true⟩] }

/-- The 14 Штепа categories, in source order. -/
def shtepaCategories : List CategoryDefinition :=
  [shtepaCat1, shtepaCat2, shtepaCat3, shtepaCat4, shtepaCat5, shtepaCat6,
   shtepaCat7, shtepaCat8, shtepaCat9, shtepaCat10, shtepaCat11, shtepaCat12,
   shtepaCat13, shtepaCat14]

/-- Scale-2 (Штепа) decoder `convertShtepaAnswer`: "Так"/"+" is true,
"Ні"/"-" is false, anything else defaults to false. -/
def convertShtepaAnswer (rawValue : List Char) : Bool :=
  let normalized := (jsTrim rawValue).map jsToLower
  if normalized = "так".data ∨ normalized = "+".data then true
  else if normalized = "ні".data ∨ normalized = "-".data then false
  else false

/-- One Штепа question slot scores a point when the decoded answer equals the
slot's expected value. -/
def shtepaQMatches (answers : List Bool) (q : ShtepaQ) : Bool :=
  answers.getD (q.num - 1) false == q.expected

/-- Штепа category subtotal: number of matching question slots. -/
def shtepaCategoryScore (catDef : CategoryDefinition) (answers : List Bool) : Nat :=
  (catDef.questions.filter (shtepaQMatches answers)).length

/-- Штепа total-score interpretation (level label and CSS class). -/
def shtepaTotalLevel (totalScore : Nat) : String × String :=
  if totalScore ≤ 56 then ("Психологічна ресурсність не діагностується", "not-diagnosed")
  else if totalScore ≤ 69 then ("Низький рівень", "low")
  else if totalScore ≤ 92 then ("Середній рівень", "medium")
  else if totalScore ≤ 106 then ("Високий рівень", "high")
  else ("Сумнівні дані", "doubtful")

/-- Штепа single-category result (interface `ShtepaCategory`). -/
structure ShtepaCategory where
  name : String
  score : Nat
  maxScore : Nat

/-- Штепа test result (interface `ShtepaResult`). -/
structure ShtepaResult where
  categories : List ShtepaCategory
  totalScore : Nat
  totalLevel : String
  totalLevelClass : String

/-- Scale-2 aggregator `calculateShtepaResults`: per-category match counts,
their sum, and the interpreted total level. -/
def calculateShtepaResults (answers : List Bool) : ShtepaResult :=
  let categories := shtepaCategories.map (fun catDef =>
    { name := catDef.name
      score := shtepaCategoryScore catDef answers
      maxScore := catDef.questions.length : ShtepaCategory })
  let totalScore := (categories.map ShtepaCategory.score).foldl (· + ·) 0
  let tl := shtepaTotalLevel totalScore
  { categories := categories, totalScore := totalScore,
    totalLevel := tl.1, totalLevelClass := tl.2 }

/-- C4 counterexample: no decoded Штепа answer array can match the first
category's 8 expected values exactly while mismatching the expected value of
every question of every other category, because question 55 belongs to the
first category (expected "Так") and also to the category Успіх (likewise
expected "Так"). -/
theorem shtepa_scenarioA_unsatisfiable :
    ¬ ∃ answers : List Bool,
      shtepaCat1.questions.all (shtepaQMatches answers) = true ∧
      ∀ cat ∈ shtepaCategories.drop 1,
        cat.questions.all (fun q => ! shtepaQMatches answers q) = true := by
  rintro ⟨answers, hmatch, hmis⟩
  have h4 := hmis shtepaCat4 (by simp [shtepaCategories])
  simp [shtepaCat1, shtepaQMatches] at hmatch
  simp [shtepaCat4, shtepaQMatches] at h4
  simp [hmatch.2.2.2.2.2.2.2] at h4

/-- Decoded Штепа answers that match the first category's 8 expected values
and mismatch the (consistent) expected value of every question outside the
first category. -/
def shtepaScenarioAnswers : List Bool :=
  [false, true, true, false, false, false, true, true, false, true,
   true, false, true, false, true, true, true, true, true, false,
   false, false, true, true, true, true, true, false, false, false,
   false, false, true, false, false, false, false, false, false, false,
   false, true, true, true, true, true, true, true, true, true,
   false, false, false, false, true, false, true, false, true, false,
   false, true, true, true, false, true, false]

/-- C4 amended: Штепа categories share questions with identical expected
answers, so an answer array matching the first category exactly necessarily
also scores in the categories that share its questions.  For the answers that
match the first category's 8 expected values and mismatch the expected value
of every question outside the first category, the subtotals are 8 for the
first category, 2 for Успіх, 1 each for Любов, Прагнення до мудрості, Робота
над собою, Самореалізація у професії and Відповідальність, 0 for the rest;
the total is 15 and the total level is the "not diagnosed" band (15 ≤ 56). -/
theorem calculateShtepaResults_scenarioA :
    ((calculateShtepaResults shtepaScenarioAnswers).categories.map
      ShtepaCategory.score = [8, 0, 0, 2, 1, 0, 0, 1, 1, 1, 1, 0, 0, 0]) ∧
    (calculateShtepaResults shtepaScenarioAnswers).totalScore = 15 ∧
    (calculateShtepaResults shtepaScenarioAnswers).totalLevel =
      "Психологічна ресурсність не діагностується" ∧
    shtepaCat1.questions.all (shtepaQMatches shtepaScenarioAnswers) = true ∧
    (shtepaCategories.drop 1).all (fun cat => cat.questions.all (fun q =>
      (shtepaCat1.questions.map ShtepaQ.num).contains q.num ||
        ! shtepaQMatches shtepaScenarioAnswers q)) = true := by
  refine ⟨by decide, by decide, ?_, by decide, by decide⟩
  decide

/-!
Scale 3 (Basic Ph) configuration, decoder and aggregator:
`basicPhCategories`, `convertBasicPhAnswer` and `calculateBasicPhResults`.
-/

/-- Basic Ph category definition (interface `BasicPhCategoryDefinition`). -/
structure BasicPhCategoryDefinition where
  code : String
  name : String
  questions : List Nat

/-- The six Basic Ph coping-resource categories, in source order. -/
def basicPhCategories : List BasicPhCategoryDefinition :=
  [⟨"B", "Віра, переконання", [1, 7, 13, 19, 25, 31]⟩,
   ⟨"A", "Емоції, почуття", [2, 8, 14, 20, 26, 32]⟩,
   ⟨"S", "Соціальні зв\x27язки", [3, 9, 15, 21, 27, 33]⟩,
   ⟨"I", "Уява, мрії", [4, 10, 16, 22, 28, 34]⟩,
   ⟨"C", "Когнітивні стратегії", [5, 11, 17, 23, 29, 35]⟩,
   ⟨"Ph", "Тілесні ресурси", [6, 12, 18, 24, 30, 36]⟩]

/-- Exact-match table of the seven canonical Basic Ph frequency phrases. -/
def basicPhAnswerMap : List (List Char × Int) :=
  [("ніколи не користуюся цим способом, щоб впоратися зі складною ситуацією".data, 0),
   ("рідко користуюся цим способом, щоб впоратися зі складною ситуацією".data, 1),
   ("іноді користуюся цим способом, щоб впоратися зі складною ситуацією".data, 2),
   ("періодично користуюся цим способом, щоб впоратися зі складною ситуацією".data, 3),
   ("часто користуюся цим способом, щоб впоратися зі складною ситуацією".data, 4),
   ("майже завжди користуюся цим способом, щоб впоратися зі складною ситуацією".data, 5),
   ("завжди користуюся цим способом, щоб впоратися зі складною ситуацією".data, 6)]

/-- Scale-3 (Basic Ph) decoder `convertBasicPhAnswer`: exact canonical phrase
match, then ordered keyword fallback, then integer parse in 0..6, else 0. -/
def convertBasicPhAnswer (rawValue : List Char) : Int :=
  let normalized := (jsTrim rawValue).map jsToLower
  match List.lookup normalized basicPhAnswerMap with
  | some v => v
  | none =>
    if strContains normalized "ніколи".data then 0
    else if strContains normalized "рідко".data then 1
    else if strContains normalized "іноді".data then 2
    else if strContains normalized "періодично".data then 3
    else if strContains normalized "часто".data then 4
    else if strContains normalized "майже завжди".data then 5
    else if strContains normalized "завжди".data then 6
    else
      match jsParseInt normalized with
      | some n => if 0 ≤ n ∧ n ≤ 6 then n else 0
      | none => 0

/-- Sum of decoded answers over a list of 1-indexed question numbers: the
per-category score loop shared by the Basic Ph and Personal-Resources
aggregators. -/
def sumQuestions : List Nat → List Int → Int
  | [], _ => 0
  | q :: qs, answers => answers.getD (q - 1) 0 + sumQuestions qs answers

/-- Basic Ph single-category result (interface `BasicPhCategory`). -/
structure BasicPhCategory where
  code : String
  name : String
  score : Int
  maxScore : Int

/-- Basic Ph test result (interface `BasicPhResult`). -/
structure BasicPhResult where
  categories : List BasicPhCategory
  totalScore : Int

/-- Scale-3 aggregator `calculateBasicPhResults`: per-category sums of six
questions each, plus the grand total. -/
def calculateBasicPhResults (answers : List Int) : BasicPhResult :=
  let categories := basicPhCategories.map (fun catDef =>
    { code := catDef.code, name := catDef.name,
      score := sumQuestions catDef.questions answers,
      maxScore := 36 : BasicPhCategory })
  let totalScore := (categories.map BasicPhCategory.score).foldl (· + ·) 0
  { categories := categories, totalScore := totalScore }

/-- Summing a list over the ascending question numbers that start right after
a prefix of given length recovers the plain list sum. -/
theorem sumQuestions_range_aux :
    ∀ (l front : List Int),
      sumQuestions (List.range' (front.length + 1) l.length) (front ++ l) = l.sum
  | [], front => by simp [sumQuestions]
  | a :: t, front => by
    rw [List.length_cons, List.range'_succ]
    simp only [sumQuestions]
    have h1 : (front ++ a :: t).getD (front.length + 1 - 1) 0 = a := by
      rw [Nat.add_sub_cancel, List.getD_append_right front (a :: t) 0 front.length
        (Nat.le_refl _), Nat.sub_self]
      rfl
    have h2 := sumQuestions_range_aux t (front ++ [a])
    rw [List.length_append, List.length_singleton, List.append_assoc,
      List.singleton_append] at h2
    rw [h1, h2, List.sum_cons]

/-- C10: the six Basic Ph question lists partition the question numbers 1..36
(their concatenation is a permutation of 1..36), so for every 36-element
decoded answer array the Basic Ph total equals the sum of all 36 answers,
and it is 216 when every answer is 6. -/
theorem calculateBasicPhResults_total_sum (answers : List Int)
    (hlen : answers.length = 36) :
    List.Perm ((basicPhCategories.map BasicPhCategoryDefinition.questions).flatten)
      (List.range' 1 36) ∧
    (calculateBasicPhResults answers).totalScore = answers.sum ∧
    (calculateBasicPhResults (List.replicate 36 6)).totalScore = 216 := by
  refine ⟨by decide, ?_, by decide⟩
  have h1 : (calculateBasicPhResults answers).totalScore =
      sumQuestions (List.range' 1 36) answers := by
    rw [show List.range' 1 36 = [1, 2, 3, 4, 5, 6, 7, 8, 9, 10, 11, 12, 13,
      14, 15, 16, 17, 18, 19, 20, 21, 22, 23, 24, 25, 26, 27, 28, 29, 30, 31,
      32, 33, 34, 35, 36] from by decide]
    simp [calculateBasicPhResults, basicPhCategories, sumQuestions]
    omega
  have h2 := sumQuestions_range_aux answers []
  rw [List.length_nil, List.nil_append, Nat.zero_add, hlen] at h2
  rw [h1, h2]

/-- Witness for C10 at the all-maximum answer array: the total of 36 answers
of 6 equals the sum of that array. -/
theorem calculateBasicPhResults_total_sum_witness :
    (calculateBasicPhResults (List.replicate 36 6)).totalScore =
      (List.replicate 36 (6 : Int)).sum :=
  (calculateBasicPhResults_total_sum (List.replicate 36 6) (by decide)).2.1

/-- C8: in the Basic Ph keyword fallback the longer phrase "майже завжди" is
tested before the shorter "завжди": every input whose normalized form is not
one of the seven canonical phrases, contains "майже завжди", and contains
none of the earlier keywords "ніколи", "рідко", "іноді", "періодично",
"часто", decodes to 5, never to 6. -/
theorem convertBasicPhAnswer_almost_always (rawValue : List Char)
    (hmap : List.lookup ((jsTrim rawValue).map jsToLower) basicPhAnswerMap = none)
    (hma : strContains ((jsTrim rawValue).map jsToLower) "майже завжди".data = true)
    (hk0 : strContains ((jsTrim rawValue).map jsToLower) "ніколи".data = false)
    (hk1 : strContains ((jsTrim rawValue).map jsToLower) "рідко".data = false)
    (hk2 : strContains ((jsTrim rawValue).map jsToLower) "іноді".data = false)
    (hk3 : strContains ((jsTrim rawValue).map jsToLower) "періодично".data = false)
    (hk4 : strContains ((jsTrim rawValue).map jsToLower) "часто".data = false) :
    convertBasicPhAnswer rawValue = 5 := by
  unfold convertBasicPhAnswer
  simp only [hmap, hma, hk0, hk1, hk2, hk3, hk4, Bool.false_eq_true, if_false,
    if_true]

/-- Witness for C8 at the concrete input "Майже завжди!", which decodes
to 5. -/
theorem convertBasicPhAnswer_almost_always_witness :
    convertBasicPhAnswer "Майже завжди!".data = 5 :=
  convertBasicPhAnswer_almost_always "Майже завжди!".data (by decide)
    (by decide) (by decide) (by decide) (by decide) (by decide) (by decide)

/-!
Scale 4 (Особистісні ресурси) configuration, decoder and aggregator:
`convertPersonalResourceAnswer` and `calculatePersonalResourceResults`.
-/

/-- Question numbers of the Достатність (Sufficiency) category. -/
def personalResourceSufficiencyQuestions : List Nat := [1, 2, 4, 5, 9, 10]

/-- Question numbers of the Стратегії подолання (Coping) category. -/
def personalResourceCopingQuestions : List Nat := [3, 6, 8, 12]

/-- Question numbers of the Емоційна спустошеність (Exhaustion) category. -/
def personalResourceExhaustionQuestions : List Nat := [7, 11, 13]

/-- Scale-4 decoder `convertPersonalResourceAnswer`: substring match per
agreement level (with spelling variants and frequency synonyms), then integer
parse in 1..5, else the middle default 3. -/
def convertPersonalResourceAnswer (rawValue : List Char) : Int :=
  let normalized := (jsTrim rawValue).map jsToLower
  if strContains normalized "повністю не погоджуюсь".data ∨
      strContains normalized "повністю не погоджуюся".data ∨
      strContains normalized "майже ніколи".data then 1
  else if strContains normalized "частково не погоджусь".data ∨
      strContains normalized "частково не погоджуюся".data ∨
      strContains normalized "рідко".data then 2
  else if strContains normalized "важко визначитися".data ∨
      strContains normalized "час від часу".data then 3
  else if strContains normalized "частково погоджуюсь".data ∨
      strContains normalized "частково погоджуюся".data ∨
      strContains normalized "часто".data then 4
  else if strContains normalized "повністю погоджуюсь".data ∨
      strContains normalized "повністю погоджуюся".data ∨
      strContains normalized "майже завжди".data then 5
  else
    match jsParseInt normalized with
    | some n => if 1 ≤ n ∧ n ≤ 5 then n else 3
    | none => 3

/-- Sufficiency level interpretation (below 13 low, 13..21 medium, above 21
high). -/
def getSufficiencyLevel (score : Int) : String × String :=
  if score < 13 then ("Низький", "low")
  else if score ≤ 21 then ("Середній", "medium")
  else ("Високий", "high")

/-- Coping level interpretation (below 13 low, 13..18 medium, above 18
high). -/
def getCopingLevel (score : Int) : String × String :=
  if score < 13 then ("Низький", "low")
  else if score ≤ 18 then ("Середній", "medium")
  else ("Високий", "high")

/-- Exhaustion level interpretation: the band labels follow the usual
three-way rule (below 8 low, 8..12 medium, above 12 high) but the CSS level
classes are inverted, low exhaustion being good. -/
def getExhaustionLevel (score : Int) : String × String :=
  if score < 8 then ("Низький", "high")
  else if score ≤ 12 then ("Середній", "medium")
  else ("Високий", "low")

/-- Personal-Resources total-level interpretation (below 15 low, 15..30
medium, above 30 high). -/
def personalResourceTotalLevel (totalScore : Int) : String × String :=
  if totalScore < 15 then ("Низький", "low")
  else if totalScore ≤ 30 then ("Середній", "medium")
  else ("Високий", "high")

/-- Personal-Resources single-category result (interface
`PersonalResourceCategory`). -/
structure PersonalResourceCategory where
  name : String
  score : Int
  maxScore : Int
  level : String
  levelClass : String

/-- Personal-Resources test result (interface `PersonalResourceResult`). -/
structure PersonalResourceResult where
  sufficiency : PersonalResourceCategory
  copingStrategies : PersonalResourceCategory
  emotionalExhaustion : PersonalResourceCategory
  totalScore : Int
  totalLevel : String
  totalLevelClass : String

/-- Scale-4 aggregator `calculatePersonalResourceResults`: three category
sums, the total formula Sufficiency + Coping − Exhaustion, and the level
interpretations. -/
def calculatePersonalResourceResults (answers : List Int) : PersonalResourceResult :=
  let sufficiencyScore := sumQuestions personalResourceSufficiencyQuestions answers
  let copingScore := sumQuestions personalResourceCopingQuestions answers
  let exhaustionScore := sumQuestions personalResourceExhaustionQuestions answers
  let sufficiencyLevel := getSufficiencyLevel sufficiencyScore
  let copingLevel := getCopingLevel copingScore
  let exhaustionLevel := getExhaustionLevel exhaustionScore
  let totalScore := sufficiencyScore + copingScore - exhaustionScore
  let tl := personalResourceTotalLevel totalScore
  { sufficiency :=
      { name := "Достатність"
        score := sufficiencyScore
        maxScore := 30
        level := sufficiencyLevel.1
        levelClass := sufficiencyLevel.2 }
    copingStrategies :=
      { name := "Стратегії подолання"
        score := copingScore
        maxScore := 20
        level := copingLevel.1
        levelClass := copingLevel.2 }
    emotionalExhaustion :=
      { name := "Емоційна спустошеність"
        score := exhaustionScore
        maxScore := 15
        level := exhaustionLevel.1
        levelClass := exhaustionLevel.2 }
    totalScore := totalScore
    totalLevel := tl.1
    totalLevelClass := tl.2 }

/-- C3: for every decoded Personal-Resources answer array, the test total
equals the Sufficiency subtotal plus the Coping subtotal minus the
Exhaustion subtotal; in particular for subtotals 25, 10 and 5 the total is
30 and the total level is the medium band, since every total in 15..30 is
classified "Середній". -/
theorem calculatePersonalResourceResults_total (answers : List Int)
    (hs : sumQuestions personalResourceSufficiencyQuestions answers = 25)
    (hc : sumQuestions personalResourceCopingQuestions answers = 10)
    (he : sumQuestions personalResourceExhaustionQuestions answers = 5) :
    (∀ a : List Int, (calculatePersonalResourceResults a).totalScore =
      sumQuestions personalResourceSufficiencyQuestions a +
        sumQuestions personalResourceCopingQuestions a -
        sumQuestions personalResourceExhaustionQuestions a) ∧
    (calculatePersonalResourceResults answers).totalScore = 30 ∧
    (calculatePersonalResourceResults answers).totalLevel = "Середній" ∧
    (∀ t : Int, 15 ≤ t → t ≤ 30 →
      (personalResourceTotalLevel t).1 = "Середній") := by
  refine ⟨fun a => by rfl, ?_, ?_, ?_⟩
  · simp [calculatePersonalResourceResults, hs, hc, he]
  · simp [calculatePersonalResourceResults, hs, hc, he,
      personalResourceTotalLevel]
  · intro t h1 h2
    simp only [personalResourceTotalLevel]
    rw [if_neg (by omega), if_pos h2]

/-- Witness for C3 at a concrete answer array realizing subtotals 25, 10
and 5. -/
theorem calculatePersonalResourceResults_total_witness :
    (calculatePersonalResourceResults
      [5, 5, 3, 5, 5, 3, 1, 2, 4, 1, 2, 2, 2]).totalScore = 30 ∧
    (calculatePersonalResourceResults
      [5, 5, 3, 5, 5, 3, 1, 2, 4, 1, 2, 2, 2]).totalLevel = "Середній" := by
  have h := calculatePersonalResourceResults_total
    [5, 5, 3, 5, 5, 3, 1, 2, 4, 1, 2, 2, 2] (by decide) (by decide) (by decide)
  exact ⟨h.2.1, h.2.2.1⟩

/-- C9: the Exhaustion band label follows the same three-way rule as the
other Scale-4 categories (below 8 low, 8..12 medium, above 12 high), while
its level class has inverted polarity: scores below 8 get the good class
"high" and scores above 12 get the bad class "low". -/
theorem getExhaustionLevel_inverted (score : Int) :
    ((getExhaustionLevel score).1 =
      if score < 8 then "Низький"
      else if score ≤ 12 then "Середній" else "Високий") ∧
    ((getExhaustionLevel score).2 = "high" ↔ score < 8) ∧
    ((getExhaustionLevel score).2 = "low" ↔ 12 < score) ∧
    ((getExhaustionLevel score).2 = "medium" ↔ 8 ≤ score ∧ score ≤ 12) := by
  unfold getExhaustionLevel
  split_ifs <;> (simp_all; try omega)

/-!
Scale 5 (Ryff) configuration, decoder and aggregator: `ryffCategories`,
`convertRyffAnswer`, `calculateRyffResults` and `getRyffCategoryLevel`.
-/

/-- One Ryff question slot: question number and reversal flag. -/
structure RyffQ where
  num : Nat
  isReversed : Bool

/-- Ryff category definition: name, question slots and level thresholds. -/
structure RyffCategoryDef where
  name : String
  questions : List RyffQ
  lowThreshold : Int
  highThreshold : Int

/-- Ryff category Відносини. -/
def ryffRelationships : RyffCategoryDef :=
  { name := "Відносини",
    questions := [⟨1, false⟩, ⟨7, true⟩, ⟨13, true⟩, ⟨19, false⟩,
      ⟨25, false⟩, ⟨31, true⟩, ⟨37, false⟩, ⟨43, true⟩, ⟨49, false⟩,
      ⟨55, true⟩, ⟨61, true⟩, ⟨67, false⟩, ⟨73, true⟩, ⟨79, false⟩],
    lowThreshold := 53, highThreshold := 74 }

/-- Ryff category Автономія. -/
def ryffAutonomy : RyffCategoryDef :=
  { name := "Автономія",
    questions := [⟨2, true⟩, ⟨8, false⟩, ⟨14, false⟩, ⟨20, true⟩,
      ⟨26, false⟩, ⟨32, true⟩, ⟨38, false⟩, ⟨44, true⟩, ⟨50, false⟩,
      ⟨56, true⟩, ⟨62, true⟩, ⟨68, false⟩, ⟨74, true⟩, ⟨80, false⟩],
    lowThreshold := 48, highThreshold := 62 }

/-- Ryff category Середовище. -/
def ryffEnvironment : RyffCategoryDef :=
  { name := "Середовище",
    questions := [⟨3, false⟩, ⟨9, true⟩, ⟨15, true⟩, ⟨21, false⟩,
      ⟨27, true⟩, ⟨33, false⟩, ⟨39, false⟩, ⟨45, true⟩, ⟨51, false⟩,
      ⟨57, false⟩, ⟨63, true⟩, ⟨69, false⟩, ⟨75, true⟩, ⟨81, false⟩],
    lowThreshold := 51, highThreshold := 71 }

/-- Ryff category Зростання. -/
def ryffGrowth : RyffCategoryDef :=
  { name := "Зростання",
    questions := [⟨4, true⟩, ⟨10, false⟩, ⟨16, false⟩, ⟨22, true⟩,
      ⟨28, false⟩, ⟨34, true⟩, ⟨40, false⟩, ⟨46, false⟩, ⟨52, false⟩,
      ⟨58, true⟩, ⟨64, false⟩, ⟨70, false⟩, ⟨76, true⟩, ⟨82, true⟩],
    lowThreshold := 53, highThreshold := 71 }

/-- Ryff category Цілі. -/
def ryffPurpose : RyffCategoryDef :=
  { name := "Цілі",
    questions := [⟨5, false⟩, ⟨11, true⟩, ⟨17, true⟩, ⟨23, false⟩,
      ⟨29, true⟩, ⟨35, true⟩, ⟨41, true⟩, ⟨47, false⟩, ⟨53, false⟩,
      ⟨59, false⟩, ⟨65, true⟩, ⟨71, false⟩, ⟨77, false⟩, ⟨83, true⟩],
    lowThreshold := 54, highThreshold := 75 }

/-- Ryff category Самосприйняття. -/
def ryffSelfAcceptance : RyffCategoryDef :=
  { name := "Самосприйняття",
    questions := [⟨6, false⟩, ⟨12, false⟩, ⟨18, true⟩, ⟨24, true⟩,
      ⟨30, false⟩, ⟨36, false⟩, ⟨42, true⟩, ⟨48, false⟩, ⟨54, true⟩,
      ⟨60, true⟩, ⟨66, true⟩, ⟨72, false⟩, ⟨78, false⟩, ⟨84, true⟩],
    lowThreshold := 49, highThreshold := 71 }

/-- Ryff total-score low threshold. -/
def ryffTotalLowThreshold : Int := 315

/-- Ryff total-score high threshold. -/
def ryffTotalHighThreshold : Int := 413

/-- Scale-5 (Ryff) decoder `convertRyffAnswer`: substring match against the
six canonical agreement phrases in source order, then integer parse in 1..6,
else the default 3. -/
def convertRyffAnswer (rawValue : List Char) : Int :=
  let normalized := (jsTrim rawValue).map jsToLower
  if strContains normalized "повністю не згоден".data then 1
  else if strContains normalized "здебільшого не згоден".data then 2
  else if strContains normalized "де в чому не згоден".data then 3
  else if strContains normalized "де в чому згоден".data then 4
  else if strContains normalized "швидше згоден".data then 5
  else if strContains normalized "повністю згоден".data then 6
  else
    match jsParseInt normalized with
    | some n => if 1 ≤ n ∧ n ≤ 6 then n else 3
    | none => 3

/-- Reversal transform applied to one raw answer while aggregating: reversed
slots contribute `7 - rawAnswer`, other slots contribute the raw answer. -/
def ryffFinalAnswer (isReversed : Bool) (rawAnswer : Int) : Int :=
  if isReversed then 7 - rawAnswer else rawAnswer

/-- Ryff per-category score loop: sum of final (possibly reversed) answers
over the category's question slots. -/
def ryffCategoryScore : List RyffQ → List Int → Int
  | [], _ => 0
  | q :: qs, answers =>
    ryffFinalAnswer q.isReversed (answers.getD (q.num - 1) 0) +
      ryffCategoryScore qs answers

/-- Level interpretation used for each Ryff category while aggregating. -/
def ryffCategoryLevelOf (score lowThreshold highThreshold : Int) :
    String × String :=
  if score < lowThreshold then ("Низький", "low")
  else if score > highThreshold then ("Високий", "high")
  else ("Середній", "medium")

/-- Ryff single-category result (interface `RyffCategory`). -/
structure RyffCategory where
  name : String
  score : Int
  maxScore : Int
  level : String
  levelClass : String

/-- Ryff test result (interface `RyffResult`). -/
structure RyffResult where
  relationships : RyffCategory
  autonomy : RyffCategory
  environment : RyffCategory
  growth : RyffCategory
  purpose : RyffCategory
  selfAcceptance : RyffCategory
  totalScore : Int
  totalLevel : String
  totalLevelClass : String

/-- The per-category helper of `calculateRyffResults`. -/
def calculateCategoryScore (categoryDef : RyffCategoryDef)
    (answers : List Int) : RyffCategory :=
  let score := ryffCategoryScore categoryDef.questions answers
  let lv := ryffCategoryLevelOf score categoryDef.lowThreshold
    categoryDef.highThreshold
  { name := categoryDef.name
    score := score
    maxScore := 84
    level := lv.1
    levelClass := lv.2 }

/-- Ryff total-score level interpretation. -/
def ryffTotalLevelOf (totalScore : Int) : String × String :=
  if totalScore < ryffTotalLowThreshold then ("Низький", "low")
  else if totalScore > ryffTotalHighThreshold then ("Високий", "high")
  else ("Середній", "medium")

/-- Scale-5 aggregator `calculateRyffResults`: six category scores with
levels, their sum and the total level. -/
def calculateRyffResults (answers : List Int) : RyffResult :=
  let relationships := calculateCategoryScore ryffRelationships answers
  let autonomy := calculateCategoryScore ryffAutonomy answers
  let environment := calculateCategoryScore ryffEnvironment answers
  let growth := calculateCategoryScore ryffGrowth answers
  let purpose := calculateCategoryScore ryffPurpose answers
  let selfAcceptance := calculateCategoryScore ryffSelfAcceptance answers
  let totalScore := relationships.score + autonomy.score + environment.score +
    growth.score + purpose.score + selfAcceptance.score
  let tl := ryffTotalLevelOf totalScore
  { relationships := relationships
    autonomy := autonomy
    environment := environment
    growth := growth
    purpose := purpose
    selfAcceptance := selfAcceptance
    totalScore := totalScore
    totalLevel := tl.1
    totalLevelClass := tl.2 }

/-- Helper `getRyffCategoryLevel` of the source (same three-way rule as the
classifier used while aggregating). -/
def getRyffCategoryLevel (score lowThreshold highThreshold : Int) :
    String × String :=
  if score < lowThreshold then ("Низький", "low")
  else if score > highThreshold then ("Високий", "high")
  else ("Середній", "medium")

/-- C2: the Ryff aggregation adds 7 − v to the category sum when the
question slot is flagged reversed and adds v unchanged when it is not; the
reversal transform maps 1↔6, 2↔5 and 3↔4 and is its own inverse. -/
theorem ryffCategoryScore_reversal (q : RyffQ) (qs : List RyffQ)
    (answers : List Int) (v : Int) :
    (ryffCategoryScore (q :: qs) answers =
      (if q.isReversed then 7 - answers.getD (q.num - 1) 0
        else answers.getD (q.num - 1) 0) + ryffCategoryScore qs answers) ∧
    ryffFinalAnswer true v = 7 - v ∧
    ryffFinalAnswer false v = v ∧
    ryffFinalAnswer true (ryffFinalAnswer true v) = v ∧
    ryffFinalAnswer true 1 = 6 ∧ ryffFinalAnswer true 2 = 5 ∧
    ryffFinalAnswer true 3 = 4 ∧ ryffFinalAnswer true 4 = 3 ∧
    ryffFinalAnswer true 5 = 2 ∧ ryffFinalAnswer true 6 = 1 := by
  refine ⟨by simp [ryffCategoryScore, ryffFinalAnswer],
    by simp [ryffFinalAnswer], by simp [ryffFinalAnswer],
    by simp [ryffFinalAnswer], by decide, by decide, by decide,
    by decide, by decide, by decide⟩

/-- Band label of `getRyffCategoryLevel` is low exactly below the low
bound. -/
theorem getRyffCategoryLevel_low_iff (s l h : Int) :
    ((getRyffCategoryLevel s l h).1 = "Низький" ↔ s < l) := by
  unfold getRyffCategoryLevel
  split_ifs <;> simp_all

/-- Band label of `getRyffCategoryLevel` is high exactly above the high
bound, provided the bounds are ordered. -/
theorem getRyffCategoryLevel_high_iff (s l h : Int) (hlh : l ≤ h) :
    ((getRyffCategoryLevel s l h).1 = "Високий" ↔ h < s) := by
  unfold getRyffCategoryLevel
  split_ifs <;> (simp_all; try omega)

/-- Band label of `getSufficiencyLevel`: low below 13, high above 21. -/
theorem getSufficiencyLevel_iff (s : Int) :
    ((getSufficiencyLevel s).1 = "Низький" ↔ s < 13) ∧
    ((getSufficiencyLevel s).1 = "Високий" ↔ 21 < s) := by
  unfold getSufficiencyLevel
  split_ifs <;> (simp_all; try omega)

/-- Band label of `getCopingLevel`: low below 13, high above 18. -/
theorem getCopingLevel_iff (s : Int) :
    ((getCopingLevel s).1 = "Низький" ↔ s < 13) ∧
    ((getCopingLevel s).1 = "Високий" ↔ 18 < s) := by
  unfold getCopingLevel
  split_ifs <;> (simp_all; try omega)

/-- Band label of `getExhaustionLevel`: low below 8, high above 12. -/
theorem getExhaustionLevel_iff (s : Int) :
    ((getExhaustionLevel s).1 = "Низький" ↔ s < 8) ∧
    ((getExhaustionLevel s).1 = "Високий" ↔ 12 < s) := by
  unfold getExhaustionLevel
  split_ifs <;> (simp_all; try omega)

/-- Band label of `personalResourceTotalLevel`: low below 15, high
above 30. -/
theorem personalResourceTotalLevel_iff (s : Int) :
    ((personalResourceTotalLevel s).1 = "Низький" ↔ s < 15) ∧
    ((personalResourceTotalLevel s).1 = "Високий" ↔ 30 < s) := by
  unfold personalResourceTotalLevel
  split_ifs <;> (simp_all; try omega)

/-- C5: every classifier built on a (low, high) bound pair — the Ryff
category classifier (the helper `getRyffCategoryLevel` and the classifier
used while aggregating agree), the Ryff total, and the Personal-Resources
categories and total — sends a score equal to the low bound or to the high
bound to the medium band, yields "Низький" exactly below the low bound and
"Високий" exactly above the high bound. -/
theorem boundary_scores_are_medium (score low high : Int) (hlh : low ≤ high) :
    (∀ s l h, getRyffCategoryLevel s l h = ryffCategoryLevelOf s l h) ∧
    ((getRyffCategoryLevel score low high).1 = "Низький" ↔ score < low) ∧
    ((getRyffCategoryLevel score low high).1 = "Високий" ↔ high < score) ∧
    getRyffCategoryLevel low low high = ("Середній", "medium") ∧
    getRyffCategoryLevel high low high = ("Середній", "medium") ∧
    (∀ s, ryffTotalLevelOf s = getRyffCategoryLevel s 315 413) ∧
    ryffTotalLevelOf 315 = ("Середній", "medium") ∧
    ryffTotalLevelOf 413 = ("Середній", "medium") ∧
    (∀ s, ((getSufficiencyLevel s).1 = "Низький" ↔ s < 13) ∧
      ((getSufficiencyLevel s).1 = "Високий" ↔ 21 < s)) ∧
    getSufficiencyLevel 13 = ("Середній", "medium") ∧
    getSufficiencyLevel 21 = ("Середній", "medium") ∧
    (∀ s, ((getCopingLevel s).1 = "Низький" ↔ s < 13) ∧
      ((getCopingLevel s).1 = "Високий" ↔ 18 < s)) ∧
    getCopingLevel 13 = ("Середній", "medium") ∧
    getCopingLevel 18 = ("Середній", "medium") ∧
    (∀ s, ((getExhaustionLevel s).1 = "Низький" ↔ s < 8) ∧
      ((getExhaustionLevel s).1 = "Високий" ↔ 12 < s)) ∧
    (getExhaustionLevel 8).1 = "Середній" ∧
    (getExhaustionLevel 12).1 = "Середній" ∧
    (∀ s, ((personalResourceTotalLevel s).1 = "Низький" ↔ s < 15) ∧
      ((personalResourceTotalLevel s).1 = "Високий" ↔ 30 < s)) ∧
    personalResourceTotalLevel 15 = ("Середній", "medium") ∧
    personalResourceTotalLevel 30 = ("Середній", "medium") := by
  refine ⟨fun s l h => rfl,
    getRyffCategoryLevel_low_iff score low high,
    getRyffCategoryLevel_high_iff score low high hlh,
    ?_, ?_, fun s => rfl, by decide, by decide,
    getSufficiencyLevel_iff, by decide, by decide,
    getCopingLevel_iff, by decide, by decide,
    getExhaustionLevel_iff, by decide, by decide,
    personalResourceTotalLevel_iff, by decide, by decide⟩
  · unfold getRyffCategoryLevel
    rw [if_neg (by omega), if_neg (by omega)]
  · unfold getRyffCategoryLevel
    rw [if_neg (by omega), if_neg (by omega)]

/-- Witness for C5 at the bound pair (0, 1): the score 0 sits exactly at the
low bound and classifies as the medium band. -/
theorem boundary_scores_are_medium_witness :
    getRyffCategoryLevel 0 0 1 = ("Середній", "medium") :=
  (boundary_scores_are_medium 0 0 1 (by decide)).2.2.2.1

/-!
CSV pipeline: `parseCSVLine`, the per-row respondent assembly of
`parseAndTransformCSV`, and the loader itself as a state transformer.
-/

/-- JavaScript `Math.round`: round half toward positive infinity. -/
def jsRound (q : ℚ) : ℚ := (Int.floor (q + 1 / 2) : ℚ)

/-- The САН scale helper `calculateAverage`: mean of the selected answers,
rounded to two decimal places. -/
def calculateAverage (answers : List Int) (questionNumbers : List Nat) : ℚ :=
  let values := questionNumbers.map (fun qNum => ((answers.getD (qNum - 1) 0 : Int) : ℚ))
  let sum := values.foldl (· + ·) 0
  jsRound (sum / (values.length : ℚ) * 100) / 100

/-- САН test result (interface `SanResult`). -/
structure SanResult where
  wellbeing : ℚ
  activity : ℚ
  mood : ℚ

/-- Complete respondent record (interface `Respondent`). -/
structure Respondent where
  timestamp : List Char
  email : List Char
  age : List Char
  sanAnswers : List Int
  san : SanResult
  shtepaAnswers : List Bool
  shtepa : ShtepaResult
  basicPhAnswers : List Int
  basicPh : BasicPhResult
  personalResourceAnswers : List Int
  personalResource : PersonalResourceResult
  ryffAnswers : List Int
  ryff : RyffResult

/-- Accumulator loop of the CSV line tokenizer: quote state toggles on every
quote character, commas outside quotes split fields, each field trimmed. -/
def parseCSVLineAux : List Char → List Char → Bool → List (List Char)
  | [], current, _ => [jsTrim current.reverse]
  | c :: rest, current, inQuotes =>
    if c = '\"' then parseCSVLineAux rest current (!inQuotes)
    else if c = ',' ∧ inQuotes = false then
      jsTrim current.reverse :: parseCSVLineAux rest [] inQuotes
    else parseCSVLineAux rest (c :: current) inQuotes

/-- CSV line tokenizer `parseCSVLine`. -/
def parseCSVLine (line : List Char) : List (List Char) :=
  parseCSVLineAux line [] false

/-- Required tokenized field count per data row:
3 + 30 + 67 + 36 + 13 + 84. -/
def minColumns : Nat := 3 + 30 + 67 + 36 + 13 + 84

/-- Builds one respondent record from a tokenized row (the body of the
per-row loop of `parseAndTransformCSV`): decodes the five answer blocks at
their fixed column offsets and runs the five aggregators. -/
def buildRespondent (columns : List (List Char)) : Respondent :=
  let sanAnswers := (List.range 30).map (fun i =>
    convertSanAnswer (columns.getD (3 + i) []) (reversedQuestions.contains (i + 1)))
  let san : SanResult :=
    { wellbeing := calculateAverage sanAnswers wellbeingQuestions
      activity := calculateAverage sanAnswers activityQuestions
      mood := calculateAverage sanAnswers moodQuestions }
  let shtepaAnswers := (List.range 67).map (fun i =>
    convertShtepaAnswer (columns.getD (33 + i) []))
  let basicPhAnswers := (List.range 36).map (fun i =>
    convertBasicPhAnswer (columns.getD (100 + i) []))
  let personalResourceAnswers := (List.range 13).map (fun i =>
    convertPersonalResourceAnswer (columns.getD (136 + i) []))
  let ryffAnswers := (List.range 84).map (fun i =>
    convertRyffAnswer (columns.getD (149 + i) []))
  { timestamp := columns.getD 0 []
    email := columns.getD 1 []
    age := columns.getD 2 []
    sanAnswers := sanAnswers
    san := san
    shtepaAnswers := shtepaAnswers
    shtepa := calculateShtepaResults shtepaAnswers
    basicPhAnswers := basicPhAnswers
    basicPh := calculateBasicPhResults basicPhAnswers
    personalResourceAnswers := personalResourceAnswers
    personalResource := calculatePersonalResourceResults personalResourceAnswers
    ryffAnswers := ryffAnswers
    ryff := calculateRyffResults ryffAnswers }

/-- One iteration of the data-row loop of `parseAndTransformCSV`: a row with
fewer than `minColumns` tokenized fields is skipped (`continue`), any other
row yields a respondent record. -/
def processRow (line : List Char) : Option Respondent :=
  let columns := parseCSVLine line
  if columns.length < minColumns then none
  else some (buildRespondent columns)

/-- Component state read and written by `parseAndTransformCSV`. -/
structure AppState where
  respondents : List Respondent
  errorMessage : String

/-- The CSV loader `parseAndTransformCSV` as a state transformer: split into
non-blank lines, require a header plus at least one data row (early return
leaves the stored respondents untouched), process the data rows, and report
when no row was valid. -/
def parseAndTransformCSV (content : List Char) (st : AppState) : AppState :=
  let lines := (splitOnChar '\n' content).filter (fun l => ! (jsTrim l).isEmpty)
  if lines.length < 2 then
    { st with errorMessage := "CSV file must have a header and at least one data row" }
  else
    let dataRows := lines.drop 1
    let respondents := dataRows.filterMap processRow
    if respondents.length = 0 then
      { respondents := respondents
        errorMessage := "No valid data rows found in CSV" }
    else
      { respondents := respondents
        errorMessage := st.errorMessage }

/-- C6: a data row yields a respondent record exactly when its tokenized
field count is at least 233 (and `minColumns` is 233 = 3+30+67+36+13+84); a
row with fewer fields contributes no record to the result sequence, and
processing continues with the remaining rows. -/
theorem processRow_iff_min_columns (line : List Char) (rows : List (List Char)) :
    minColumns = 233 ∧
    ((processRow line).isSome = true ↔ 233 ≤ (parseCSVLine line).length) ∧
    ((parseCSVLine line).length < 233 →
      (line :: rows).filterMap processRow = rows.filterMap processRow) ∧
    (233 ≤ (parseCSVLine line).length →
      (line :: rows).filterMap processRow =
        buildRespondent (parseCSVLine line) :: rows.filterMap processRow) := by
  refine ⟨rfl, ?_, ?_, ?_⟩
  · simp only [processRow]
    split_ifs with h
    · simp only [minColumns] at h
      simp only [Option.isSome_none, Bool.false_eq_true, false_iff]
      omega
    · simp only [minColumns] at h
      simp only [Option.isSome_some, true_iff]
      omega
  · intro h
    refine List.filterMap_cons_none ?_
    simp only [processRow]
    rw [if_pos (by simpa only [minColumns] using h)]
  · intro h
    refine List.filterMap_cons_some ?_
    simp only [processRow]
    rw [if_neg (by simp only [minColumns]; omega)]

/-- Witness for C6: a row of two fields is skipped and contributes no
record. -/
theorem processRow_iff_min_columns_witness :
    List.filterMap processRow ["a,b".data] = [] := by
  have h := (processRow_iff_min_columns "a,b".data []).2.2.1 (by decide)
  simpa using h

/-- C7 counterexample: loading a header-only file (a single non-blank line)
sets the header-and-data-row error message — which is not the "No valid
data rows found in CSV" message — and adds no respondent records. -/
theorem emptyInput_message_counterexample :
    (parseAndTransformCSV "Timestamp,Email,Age".data ⟨[], ""⟩).errorMessage =
      "CSV file must have a header and at least one data row" ∧
    (parseAndTransformCSV "Timestamp,Email,Age".data ⟨[], ""⟩).errorMessage ≠
      "No valid data rows found in CSV" ∧
    (parseAndTransformCSV "Timestamp,Email,Age".data ⟨[], ""⟩).respondents = [] := by
  refine ⟨rfl, by decide, rfl⟩

/-- C7 amended: loading content with fewer than 2 non-blank lines reports
the user-facing message "CSV file must have a header and at least one data
row" (not the "No valid data rows found in CSV" message) and returns early,
leaving the stored respondent list unchanged; a load from the empty state
therefore yields zero records. -/
theorem parseAndTransformCSV_too_few_lines (content : List Char) (st : AppState)
    (h : ((splitOnChar '\n' content).filter
      (fun l => ! (jsTrim l).isEmpty)).length < 2) :
    (parseAndTransformCSV content st).errorMessage =
      "CSV file must have a header and at least one data row" ∧
    (parseAndTransformCSV content st).respondents = st.respondents := by
  unfold parseAndTransformCSV
  rw [if_pos h]
  exact ⟨rfl, rfl⟩

/-- Witness for the amended C7 at a header-only file loaded from the empty
state. -/
theorem parseAndTransformCSV_too_few_lines_witness :
    (parseAndTransformCSV "header".data ⟨[], ""⟩).respondents = [] :=
  (parseAndTransformCSV_too_few_lines "header".data ⟨[], ""⟩ (by decide)).2
